import Mathlib

-- Shallow embedding of TX_hash_checker.py: the resilient fetcher (retry
-- decorator around the HTTP GET) and the ten-gate TRC20 validation pipeline.
-- Python machine floats are modelled as exact rationals, JSON dictionaries as
-- structures of optional fields, and Python exceptions as an explicit
-- Except-style error channel that the handlers at the end of get_tx_info
-- consume.

namespace TxChecker

/-- Configuration constant MIN_CONFIRMATIONS = 20 from TX_hash_checker.py. -/
def MIN_CONFIRMATIONS : Int := 20

/-- Configuration constant TX_EXPIRY_SECONDS = 600 (freshness window, seconds). -/
def TX_EXPIRY_SECONDS : ℚ := 600

/-- Configuration constant REQUEST_TIMEOUT = 10 (per-attempt HTTP timeout). -/
def REQUEST_TIMEOUT : Nat := 10

/-- Configuration constant MAX_RETRIES = 3 (attempt budget of the retry decorator). -/
def MAX_RETRIES : Nat := 3

/-- Configuration constant RETRY_DELAY = 1 (seconds slept between retried attempts). -/
def RETRY_DELAY : Nat := 1

/-- Loosely typed Python values that can sit in the JSON fields the checker
reads with dict.get: booleans, integers, strings, or None. -/
inductive PyVal where
  | pybool (b : Bool)
  | pyint (n : Int)
  | pystr (s : String)
  | pynone
  deriving DecidableEq, Repr

/-- Exception classes relevant to get_tx_info: requests.Timeout,
requests.ConnectionError, ValueError, TypeError, other RequestException
subclasses, and any other Exception. Payload strings model str(e). -/
inductive PyExc where
  | timeout
  | connectionError (m : String)
  | valueError (m : String)
  | typeError (m : String)
  | requestException (m : String)
  | otherError (m : String)
  deriving DecidableEq, Repr

/-- Value of a Python float: a finite value, modelled as the exact rational
it denotes, or one of the special values inf, -inf and nan that float() can
also produce. The exact-rational embedding idealizes the rounding and the
overflow of the IEEE double: finite results are treated as exact. -/
inductive PyFloat where
  | finite (q : ℚ)
  | infinite (neg : Bool)
  | nan
  deriving DecidableEq, Repr

/-- One entry of the trc20TransferInfo list; the code reads only to_address. -/
structure Trc20Transfer where
  to_address : Option String
  deriving DecidableEq, Repr

/-- The fields of the JSON transaction record that get_tx_info reads. A
missing dictionary key is none. trigger_value collapses the nested path
trigger_info.parameter._value, whose dict.get chain defaults to 0 when any
level is absent. -/
structure TxData where
  contractRet : Option String
  confirmations : Option Int
  confirmed : Option Bool
  ownerAddress : Option String
  trc20TransferInfo : Option (List Trc20Transfer)
  contract_type : Option String
  revert : Option PyVal
  timestamp : Option Int
  trigger_value : Option PyVal
  deriving DecidableEq, Repr

/-- The result dictionary of get_tx_info: status and msg always present; the
remaining keys are present only in the success dictionary. The time field
models datetime.fromtimestamp(timestamp) by the epoch seconds it denotes. -/
structure Outcome where
  status : Bool
  msg : String
  time : Option ℚ
  amount : Option PyFloat
  tx_hash : Option String
  sender : Option String
  receiver : Option String
  confirmations : Option Int
  deriving DecidableEq, Repr

/-- Failure dictionary containing only status=False and a msg, as returned on
every non-success path of get_tx_info. -/
def mkFail (m : String) : Outcome :=
  ⟨false, m, none, none, none, none, none, none⟩

/-- Result of one requests.get call: it raises Timeout or ConnectionError or
another RequestException, or yields an HTTP response. -/
inductive NetResult where
  | timeout
  | connError (m : String)
  | reqError (m : String)
  | response (status_code : Int) (content_type : String) (body : Option TxData)
  deriving DecidableEq, Repr

/-- Message f-strings of TX_hash_checker.py, factored out verbatim. -/
def msg_missing_params : String := "Error: Missing required parameters"

/-- Message for a non-200 HTTP status code. -/
def msg_non200 (code : Int) : String :=
  "Error: Received non-200 status code: " ++ toString code

/-- Message for a content type that does not start with application/json. -/
def msg_non_json : String := "Error: Received non-JSON content type"

/-- Message for contractRet different from SUCCESS. -/
def msg_tx_failed : String := "The transaction didn\x27t complete correctly (FAILED)."

/-- Message for the under-confirmation failure; includes the observed count and
the required MIN_CONFIRMATIONS. -/
def msg_not_confirmed (confirmations : Int) : String :=
  "Warning: The transaction is not confirmed by enough blocks. Current confirmations: "
    ++ toString confirmations ++ "/" ++ toString MIN_CONFIRMATIONS

/-- Message when ownerAddress is missing or empty. -/
def msg_no_sender : String := "Error: Could not extract sender address"

/-- Message when the sender does not match the expected customer wallet. -/
def msg_sender_mismatch (expected : String) : String :=
  "The sender of the amount is not authorized. Please double-check the TX. Expected: "
    ++ expected

/-- Message when trc20TransferInfo is absent, not a list, or empty. -/
def msg_no_transfer : String := "Error: No TRC20 transfer information found in transaction"

/-- Message when the first transfer entry has no to_address. -/
def msg_no_receiver : String := "Error: Could not extract receiver address"

/-- Message when the receiver does not match the expected wallet. -/
def msg_receiver_mismatch (expected : String) : String :=
  "The receiver wallet doesn\x27t belong to us. Please double-check the TX. Expected: "
    ++ expected

/-- Message when the lower-cased contract type differs from trc20. -/
def msg_bad_type (got : String) : String :=
  "The format of the TX is not trc20. Please double-check the TX. Got: " ++ got

/-- Message when the revert flag is literally True. -/
def msg_revert : String := "Revert happened. Probably your money will come back to your wallet."

/-- Message when the timestamp is missing or zero. -/
def msg_no_timestamp : String := "Error: Could not extract transaction timestamp"

/-- Message when the transaction is older than the freshness window; includes
int(time_difference), the elapsed seconds truncated toward zero. -/
def msg_expired (seconds : Int) : String :=
  "Your submission time for the TX hash has expired (submitted " ++ toString seconds
    ++ " seconds ago). However, you can contact our support team for further information and assistance."

/-- Message when float() on the raw amount raises ValueError or TypeError. -/
def msg_no_amount : String := "Error: Could not extract transaction amount"

/-- Message of the success dictionary. -/
def msg_success : String := "TX was successfully validated"

/-- Message of the except Timeout handler. -/
def msg_timeout : String := "Error: Request timeout. The API server is not responding in time."

/-- Message of the except ConnectionError handler. -/
def msg_conn_error : String := "Error: Connection error. Please check your internet connection."

/-- Message of the except ValueError handler (unparsable JSON body). -/
def msg_invalid_format : String := "Error: Invalid response format from API"

/-- Python int() on a rational: truncation toward zero. -/
def pyInt (q : ℚ) : Int := Int.tdiv q.num q.den

/-- Python test x is True: identity with the boolean singleton True, satisfied
only by the boolean value True itself, never by truthy values such as the
string true or the integer 1. -/
def pyIsTrue : PyVal → Bool
  | .pybool true => true
  | _ => false

/-- Python str.lower() on the ASCII contract-type strings, written by
structural recursion over the character list so that it evaluates inside
proofs; agrees with String.toLower on the ASCII range. -/
def pyLower (s : String) : String := String.mk (s.data.map Char.toLower)

/-- Python str.strip(): remove leading and trailing whitespace, written by
structural recursion over the character list so that it evaluates inside
proofs. -/
def pyStrip (s : String) : String :=
  String.mk (((s.data.dropWhile Char.isWhitespace).reverse.dropWhile Char.isWhitespace).reverse)

/-- Python str.startswith(p), by structural list-prefix comparison. -/
def pyStartsWith (s p : String) : Bool := p.data.isPrefixOf s.data

/-- Numeric value of a digit string. -/
def digitsToNat (cs : List Char) : Nat := cs.foldl (fun n c => 10 * n + (c.toNat - 48)) 0

/-- Walk a digit group with PEP 515 underscores: a digit may always come,
an underscore only right after a digit and only right before another digit.
The flag records whether the previous character was a digit; the result is
the group with the underscores removed, or none if the group is empty or an
underscore is misplaced. -/
def dgAux : List Char → Bool → Option (List Char)
  | [], afterDigit => if afterDigit then some [] else none
  | c :: rest, afterDigit =>
    if c.isDigit then (dgAux rest true).map (fun l => c :: l)
    else if c = '_' ∧ afterDigit then
      match rest with
      | d :: rest2 =>
        if d.isDigit then (dgAux rest2 true).map (fun l => d :: l) else none
      | [] => none
    else none

/-- A non-empty run of decimal digits with optional single underscores
between digits, as Python numeric literals allow; yields the digits. -/
def digitGroup (cs : List Char) : Option (List Char) := dgAux cs false

/-- Split a character list at the first occurrence of a separator; the second
component is none when the separator does not occur. -/
def splitAtChar (sep : Char) : List Char → List Char × Option (List Char)
  | [] => ([], none)
  | c :: rest =>
    if c = sep then ([], some rest)
    else
      let r := splitAtChar sep rest
      (c :: r.1, r.2)

/-- Exponent of a float literal: an optional sign followed by a digit
group. -/
def parseExp (cs : List Char) : Option Int :=
  match cs with
  | '+' :: rest => (digitGroup rest).map (fun ds => (digitsToNat ds : Int))
  | '-' :: rest => (digitGroup rest).map (fun ds => -(digitsToNat ds : Int))
  | rest => (digitGroup rest).map (fun ds => (digitsToNat ds : Int))

/-- The unsigned decimal part of a float literal: mantissa digits with an
optional dot and an optional e-exponent, at least one mantissa digit; yields
the mantissa digit value, the number of fractional digits, and the
exponent. -/
def parseNumber (cs : List Char) : Option (Nat × Nat × Int) :=
  let me := splitAtChar 'e' cs
  let expVal : Option Int :=
    match me.2 with
    | none => some 0
    | some ecs => parseExp ecs
  match expVal with
  | none => none
  | some e =>
    let ifp := splitAtChar '.' me.1
    match ifp.2 with
    | none =>
      match digitGroup ifp.1 with
      | none => none
      | some ds => some (digitsToNat ds, 0, e)
    | some fp =>
      if ifp.1 = [] then
        match digitGroup fp with
        | none => none
        | some fs => some (digitsToNat fs, fs.length, e)
      else if fp = [] then
        match digitGroup ifp.1 with
        | none => none
        | some ds => some (digitsToNat ds, 0, e)
      else
        match digitGroup ifp.1, digitGroup fp with
        | some ds, some fs => some (digitsToNat (ds ++ fs), fs.length, e)
        | _, _ => none

/-- The rational denoted by mantissa digits m with fracLen fractional digits
and decimal exponent e: m * 10 ^ (e - fracLen). -/
def ratOfParts (m : Nat) (fracLen : Nat) (e : Int) : ℚ :=
  (m : ℚ) * (10 : ℚ) ^ (e - (fracLen : Int))

/-- A float literal after the optional sign: the case-insensitive special
words inf, infinity and nan, or an unsigned number. -/
def parseUnsigned (cs : List Char) (neg : Bool) : Option PyFloat :=
  if cs = ['i', 'n', 'f'] ∨ cs = ['i', 'n', 'f', 'i', 'n', 'i', 't', 'y'] then
    some (.infinite neg)
  else if cs = ['n', 'a', 'n'] then some .nan
  else
    match parseNumber cs with
    | none => none
    | some p =>
      let v := ratOfParts p.1 p.2.1 p.2.2
      some (.finite (if neg then -v else v))

/-- Python float(s) on a string: strip surrounding whitespace, an optional
sign, then inf, infinity, nan (case-insensitive) or a decimal literal with
optional fraction, optional e-exponent and PEP 515 underscores. Anything
else raises ValueError (none here). ASCII digits are modelled; the exotic
unicode digit forms float() also accepts lie outside the embedding. -/
def parsePyFloat (s : String) : Option PyFloat :=
  let t := (pyStrip s).data.map Char.toLower
  match t with
  | '+' :: rest => parseUnsigned rest false
  | '-' :: rest => parseUnsigned rest true
  | rest => parseUnsigned rest false

/-- Python float(x) on the loosely typed raw amount: booleans and numbers
convert, strings parse or raise ValueError, None raises TypeError. -/
def pyFloat : PyVal → Except PyExc PyFloat
  | .pybool b => .ok (.finite (if b then 1 else 0))
  | .pyint n => .ok (.finite (n : ℚ))
  | .pystr s =>
    match parsePyFloat s with
    | some f => .ok f
    | none => .error (.valueError ("could not convert string to float: " ++ s))
  | .pynone => .error (.typeError "float() argument must be a string or a real number, not NoneType")

/-- Division of a Python float by the integer 10^6, as in
amount = amount_sun / 10**6: exact on finite values, preserving inf and
nan. -/
def pyDivMillion : PyFloat → PyFloat
  | .finite q => .finite (q / 1000000)
  | .infinite neg => .infinite neg
  | .nan => .nan

/-- Amount-extraction stage (gate 10) and the success dictionary, lines
149-170 of TX_hash_checker.py: float the raw value defaulted to 0, divide by
10^6, build the success record; ValueError or TypeError from float() is
caught locally and reported as an extraction error. -/
def amount_stage (tx_data : TxData) (timestamp : ℚ)
    (tx_hash sender receiver : String) (confirmations : Int) : Outcome :=
  match pyFloat (tx_data.trigger_value.getD (PyVal.pyint 0)) with
  | .error _ => mkFail msg_no_amount
  | .ok amount_sun =>
    ⟨true, msg_success, some timestamp, some (pyDivMillion amount_sun),
      some tx_hash, some sender, some receiver, some confirmations⟩

/-- Timestamp-extraction and freshness stage (gate 9), lines 135-147:
timestamp must be present and non-zero; the record expires when
now - timestamp / 1000 exceeds TX_EXPIRY_SECONDS strictly. -/
def timestamp_stage (tx_data : TxData) (now : ℚ)
    (tx_hash sender receiver : String) (confirmations : Int) : Outcome :=
  let time_tx_ms := tx_data.timestamp.getD 0
  if time_tx_ms = 0 then mkFail msg_no_timestamp
  else
    let timestamp : ℚ := (time_tx_ms : ℚ) / 1000
    let time_difference := now - timestamp
    if time_difference > TX_EXPIRY_SECONDS then
      mkFail (msg_expired (pyInt time_difference))
    else amount_stage tx_data timestamp tx_hash sender receiver confirmations

/-- Gates 4 to 8 (sender, transfer presence, receiver, contract type, revert),
lines 99-133, continuing into the timestamp stage. -/
def gates_after_confirm (tx_data : TxData) (now : ℚ)
    (tx_hash wallet_customer wallet_bugs : String) (confirmations : Int) : Outcome :=
  let sender := tx_data.ownerAddress.getD ""
  if sender = "" then mkFail msg_no_sender
  else if sender ≠ wallet_customer then mkFail (msg_sender_mismatch wallet_customer)
  else
    match tx_data.trc20TransferInfo with
    | none => mkFail msg_no_transfer
    | some [] => mkFail msg_no_transfer
    | some (first :: _) =>
      let receiver := first.to_address.getD ""
      if receiver = "" then mkFail msg_no_receiver
      else if receiver ≠ wallet_bugs then mkFail (msg_receiver_mismatch wallet_bugs)
      else
        let contract_type := pyLower (tx_data.contract_type.getD "")
        if contract_type ≠ "trc20" then mkFail (msg_bad_type contract_type)
        else if pyIsTrue (tx_data.revert.getD (PyVal.pybool false)) then mkFail msg_revert
        else timestamp_stage tx_data now tx_hash sender wallet_bugs confirmations

/-- Gates 2 and 3 (contract completion and confirmation depth), lines 87-97,
continuing into the later gates. The confirmation gate fails when the count
is below MIN_CONFIRMATIONS or the confirmed flag is not set. -/
def validate_gates (tx_data : TxData) (now : ℚ)
    (tx_hash wallet_customer wallet_bugs : String) : Outcome :=
  if tx_data.contractRet ≠ some "SUCCESS" then mkFail msg_tx_failed
  else
    let confirmations := tx_data.confirmations.getD 0
    let is_confirmed := tx_data.confirmed.getD false
    if confirmations < MIN_CONFIRMATIONS ∨ is_confirmed = false then
      mkFail (msg_not_confirmed confirmations)
    else gates_after_confirm tx_data now tx_hash wallet_customer wallet_bugs confirmations

/-- Handling of the HTTP response inside the try block, lines 70-170: the GET
may raise; a non-200 status or a non-JSON content type return immediately;
response.json() raises ValueError on an unparsable body; otherwise the gate
pipeline runs. -/
def fetch_result (net : NetResult) (now : ℚ)
    (tx_hash wallet_customer wallet_bugs : String) : Except PyExc Outcome :=
  match net with
  | .timeout => .error PyExc.timeout
  | .connError m => .error (PyExc.connectionError m)
  | .reqError m => .error (PyExc.requestException m)
  | .response status_code content_type body =>
    if status_code ≠ 200 then .ok (mkFail (msg_non200 status_code))
    else if ¬ pyStartsWith (pyStrip content_type) "application/json" then .ok (mkFail msg_non_json)
    else
      match body with
      | none => .error (PyExc.valueError "Expecting value")
      | some tx_data => .ok (validate_gates tx_data now tx_hash wallet_customer wallet_bugs)

/-- Body of the try block of get_tx_info paired with the number of HTTP GET
requests it issues: the parameter gate returns before any network access
(0 GETs); every other path performs exactly one GET. -/
def tx_body (net : NetResult) (now : ℚ)
    (tx_hash wallet_customer wallet_bugs : String) : Except PyExc Outcome × Nat :=
  if tx_hash = "" ∨ wallet_customer = "" ∨ wallet_bugs = "" then
    (.ok (mkFail msg_missing_params), 0)
  else (fetch_result net now tx_hash wallet_customer wallet_bugs, 1)

/-- The except clauses at lines 172-186 of get_tx_info: Timeout,
ConnectionError, ValueError, RequestException and Exception each map the
raised exception to a failure dictionary; TypeError and any other exception
reach the generic Exception handler. Message payloads are cut to 100
characters as by str(e)[:100]. -/
def handle_exceptions : PyExc → Outcome
  | .timeout => mkFail msg_timeout
  | .connectionError _ => mkFail msg_conn_error
  | .valueError _ => mkFail msg_invalid_format
  | .typeError m => mkFail ("TX checker has unexpected error: " ++ m.take 100)
  | .requestException m => mkFail ("Error: Request failed: " ++ m.take 100)
  | .otherError m => mkFail ("TX checker has unexpected error: " ++ m.take 100)

/-- One execution of the undecorated get_tx_info: the try body wrapped by the
except handlers, paired with its HTTP GET count. It is total: every modelled
exception is caught by some except clause. -/
def get_tx_info_once (net : NetResult) (now : ℚ)
    (tx_hash wallet_customer wallet_bugs : String) : Outcome × Nat :=
  match tx_body net now tx_hash wallet_customer wallet_bugs with
  | (.ok o, g) => (o, g)
  | (.error e, g) => (handle_exceptions e, g)

/-- What a call of the decorated function can produce at the call surface:
a returned dictionary, a propagated exception, or the None fallthrough of the
wrapper loop. -/
inductive WrapperResult where
  | value (o : Outcome)
  | excRaised (e : PyExc)
  | noneReturned
  deriving DecidableEq, Repr

/-- Observable statistics of one call through the retry wrapper. -/
structure RunStats where
  result : WrapperResult
  calls : Nat
  gets : Nat
  sleeps : Nat
  deriving DecidableEq, Repr

/-- Exceptions named in the except clause of the retry wrapper, line 36:
only Timeout and ConnectionError are retryable. -/
def retryable : PyExc → Bool
  | .timeout => true
  | .connectionError _ => true
  | _ => false

/-- The loop of retry_on_exception, lines 32-42: run the wrapped function for
each attempt index; a normal return exits; a retryable exception sleeps for
the delay and retries unless this was the last allowed attempt, in which case
it re-raises; a non-retryable exception propagates at once. The wrapped
function reports its own HTTP GET count per call. -/
def retryGo (delay : Nat) (func : Nat → Except PyExc Outcome × Nat) :
    Nat → Nat → RunStats
  | 0, _ => ⟨.noneReturned, 0, 0, 0⟩
  | remaining + 1, attempt =>
    match func attempt with
    | (.ok o, g) => ⟨.value o, 1, g, 0⟩
    | (.error e, g) =>
      if retryable e then
        if remaining = 0 then ⟨.excRaised e, 1, g, 0⟩
        else
          let rest := retryGo delay func remaining (attempt + 1)
          ⟨rest.result, rest.calls + 1, rest.gets + g, rest.sleeps + delay⟩
      else ⟨.excRaised e, 1, g, 0⟩

/-- The retry_on_exception decorator applied to a wrapped function. -/
def retry_on_exception (max_retries delay : Nat)
    (func : Nat → Except PyExc Outcome × Nat) : RunStats :=
  retryGo delay func max_retries 0

/-- The public decorated get_tx_info: the retry wrapper around the
exception-handled body. The environment net gives the result of the HTTP GET
of each attempt; now is the wall clock read by time.time(). Because every
exception is already caught inside get_tx_info, the wrapped function never
raises towards the wrapper. -/
def get_tx_info (net : Nat → NetResult) (now : ℚ)
    (tx_hash wallet_customer wallet_bugs : String) : RunStats :=
  retry_on_exception MAX_RETRIES RETRY_DELAY (fun attempt =>
    let p := get_tx_info_once (net attempt) now tx_hash wallet_customer wallet_bugs
    (.ok p.1, p.2))

/-- A fully valid sample record: SUCCESS, 25 confirmations, confirmed, sender
Sender1, one transfer to Receiver1, type TRC20, not reverted, included at
epoch millisecond 1000000, raw amount 5000000. -/
def dGood : TxData :=
  ⟨some "SUCCESS", some 25, some true, some "Sender1", some [⟨some "Receiver1"⟩],
    some "TRC20", some (PyVal.pybool false), some 1000000, some (PyVal.pyint 5000000)⟩

/-- Like dGood with exactly MIN_CONFIRMATIONS confirmations. -/
def dConf20 : TxData :=
  ⟨some "SUCCESS", some 20, some true, some "Sender1", some [⟨some "Receiver1"⟩],
    some "TRC20", some (PyVal.pybool false), some 1000000, some (PyVal.pyint 5000000)⟩

/-- Like dGood with MIN_CONFIRMATIONS - 1 confirmations and the flag still set. -/
def dConf19 : TxData :=
  ⟨some "SUCCESS", some 19, some true, some "Sender1", some [⟨some "Receiver1"⟩],
    some "TRC20", some (PyVal.pybool false), some 1000000, some (PyVal.pyint 5000000)⟩

/-- A record failing both the confirmation gate (5 confirmations) and the
receiver gate (transfer goes to Elsewhere). -/
def dGate35 : TxData :=
  ⟨some "SUCCESS", some 5, some true, some "Sender1", some [⟨some "Elsewhere"⟩],
    some "TRC20", some (PyVal.pybool false), some 1000000, some (PyVal.pyint 5000000)⟩

/-- Like dGood with the nested raw-amount field absent. -/
def dNoAmount : TxData :=
  ⟨some "SUCCESS", some 25, some true, some "Sender1", some [⟨some "Receiver1"⟩],
    some "TRC20", some (PyVal.pybool false), some 1000000, none⟩

/-- Like dGood with revert holding the string true instead of a boolean. -/
def dRevertStr : TxData :=
  ⟨some "SUCCESS", some 25, some true, some "Sender1", some [⟨some "Receiver1"⟩],
    some "TRC20", some (PyVal.pystr "true"), some 1000000, some (PyVal.pyint 5000000)⟩

/-- Like dGood with revert holding the integer 1 instead of a boolean. -/
def dRevertInt : TxData :=
  ⟨some "SUCCESS", some 25, some true, some "Sender1", some [⟨some "Receiver1"⟩],
    some "TRC20", some (PyVal.pyint 1), some 1000000, some (PyVal.pyint 5000000)⟩

/-- Like dGood but carrying the raw amount as the numeric string 5e6, the
exponent form float() accepts. -/
def dGoodStr : TxData :=
  ⟨some "SUCCESS", some 25, some true, some "Sender1", some [⟨some "Receiver1"⟩],
    some "TRC20", some (PyVal.pybool false), some 1000000, some (PyVal.pystr "5e6")⟩

/-- Environment whose every GET yields a well-formed 200 JSON response
carrying dGood. -/
def netGood : Nat → NetResult :=
  fun _ => NetResult.response 200 "application/json" (some dGood)

/-- Environment whose every GET yields a well-formed 200 JSON response
carrying dGoodStr. -/
def netGoodStr : Nat → NetResult :=
  fun _ => NetResult.response 200 "application/json" (some dGoodStr)

/-- Environment whose every GET yields a 404 with an HTML error page. -/
def net404 : Nat → NetResult :=
  fun _ => NetResult.response 404 "text/html" none

/-- Passing the contract-completion and confirmation gates reduces the
pipeline to the remaining gates. -/
theorem validate_gates_pass_confirm (d : TxData) (now : ℚ) (tx_hash wc wb : String)
    (hret : d.contractRet = some "SUCCESS")
    (hconf : MIN_CONFIRMATIONS ≤ d.confirmations.getD 0)
    (hflag : d.confirmed.getD false = true) :
    validate_gates d now tx_hash wc wb =
      gates_after_confirm d now tx_hash wc wb (d.confirmations.getD 0) := by
  simp only [validate_gates]
  rw [if_neg (by simp [hret]),
    if_neg (by push_neg; exact ⟨hconf, by simp [hflag]⟩)]

/-- Passing the sender, transfer-presence, receiver, contract-type and revert
gates reduces the pipeline to the timestamp stage. -/
theorem gates_after_confirm_pass (d : TxData) (now : ℚ) (tx_hash wc wb : String)
    (conf : Int) (entry : Trc20Transfer) (rest : List Trc20Transfer)
    (hown : d.ownerAddress = some wc) (hc : wc ≠ "")
    (htr : d.trc20TransferInfo = some (entry :: rest))
    (hto : entry.to_address = some wb) (hb : wb ≠ "")
    (htype : pyLower (d.contract_type.getD "") = "trc20")
    (hrev : pyIsTrue (d.revert.getD (PyVal.pybool false)) = false) :
    gates_after_confirm d now tx_hash wc wb conf =
      timestamp_stage d now tx_hash wc wb conf := by
  simp [gates_after_confirm, hown, htr, hto, htype, hrev, hc, hb]

/-- Passing the timestamp and freshness gate reduces the pipeline to the
amount stage. -/
theorem timestamp_stage_pass (d : TxData) (now : ℚ) (tx_hash s r : String)
    (conf ms : Int) (hts : d.timestamp = some ms) (hms : ms ≠ 0)
    (hfresh : now - (ms : ℚ) / 1000 ≤ TX_EXPIRY_SECONDS) :
    timestamp_stage d now tx_hash s r conf =
      amount_stage d ((ms : ℚ) / 1000) tx_hash s r conf := by
  simp [timestamp_stage, hts, hms, not_lt.mpr hfresh]

/-- Whenever float() succeeds on the raw value, the amount stage builds the
success dictionary with the value divided by 10^6. -/
theorem amount_stage_ok (d : TxData) (ts : ℚ) (tx_hash s r : String)
    (conf : Int) (amount_sun : PyFloat)
    (hok : pyFloat (d.trigger_value.getD (PyVal.pyint 0)) = Except.ok amount_sun) :
    amount_stage d ts tx_hash s r conf =
      ⟨true, msg_success, some ts, some (pyDivMillion amount_sun),
        some tx_hash, some s, some r, some conf⟩ := by
  simp [amount_stage, hok]

/-- Truncation toward zero of an integer rational is that integer. -/
theorem pyInt_intCast (n : Int) : pyInt ((n : ℚ)) = n := by
  simp [pyInt, Rat.num_intCast, Rat.den_intCast, Int.tdiv_one]

/-- The identity test with True fails on every value other than the boolean
True itself. -/
theorem pyIsTrue_eq_false (v : PyVal) (hv : v ≠ PyVal.pybool true) :
    pyIsTrue v = false := by
  cases v with
  | pybool b =>
    cases b with
    | true => exact absurd rfl hv
    | false => rfl
  | pyint n => rfl
  | pystr s => rfl
  | pynone => rfl

/-- The decorated call always returns after its first attempt, because the
try block of get_tx_info already converts every exception into a returned
dictionary, so the wrapper loop never observes a retryable exception. -/
theorem get_tx_info_first_call (net : Nat → NetResult) (now : ℚ)
    (tx_hash wallet_customer wallet_bugs : String) :
    get_tx_info net now tx_hash wallet_customer wallet_bugs =
      ⟨WrapperResult.value (get_tx_info_once (net 0) now tx_hash wallet_customer wallet_bugs).1,
        1, (get_tx_info_once (net 0) now tx_hash wallet_customer wallet_bugs).2, 0⟩ := rfl

/-- With non-empty parameters, one execution of the undecorated function is
the handled fetch result together with exactly one HTTP GET. -/
theorem get_tx_info_once_net (net : NetResult) (now : ℚ)
    (tx_hash wallet_customer wallet_bugs : String)
    (hh : tx_hash ≠ "") (hc : wallet_customer ≠ "") (hb : wallet_bugs ≠ "") :
    get_tx_info_once net now tx_hash wallet_customer wallet_bugs =
      (match fetch_result net now tx_hash wallet_customer wallet_bugs with
       | .ok o => o
       | .error e => handle_exceptions e, 1) := by
  unfold get_tx_info_once tx_body
  rw [if_neg (by simp [hh, hc, hb])]
  cases hfr : fetch_result net now tx_hash wallet_customer wallet_bugs <;> simp [hfr]

/-- The decorator in isolation, fed a function that raises Timeout on every
call, exhausts its budget: MAX_RETRIES calls, a delay after each call but the
last, then the exception re-raised. -/
theorem retry_wrapper_exhausts_budget_on_raised_timeout :
    retry_on_exception MAX_RETRIES RETRY_DELAY (fun _ => (Except.error PyExc.timeout, 1)) =
      ⟨WrapperResult.excRaised PyExc.timeout, 3, 3, 2⟩ := rfl

/-- C1: with every HTTP GET raising Timeout, the full decorated call issues
exactly one GET, sleeps zero seconds, and returns the timeout failure
dictionary, although MAX_RETRIES is 3: the except Timeout clause inside
get_tx_info swallows the exception before the retry decorator can see it, so
the documented attempt budget is never used. -/
theorem get_tx_info_timeout_makes_one_attempt :
    get_tx_info (fun _ => NetResult.timeout) 0 "hash" "sender" "receiver" =
      ⟨WrapperResult.value (mkFail msg_timeout), 1, 1, 0⟩ ∧ MAX_RETRIES = 3 ∧ RETRY_DELAY = 1 :=
  ⟨rfl, rfl, rfl⟩

/-- C6: for every input and every environment, including timeouts, connection
errors, other request errors, malformed bodies and structural failures, the
public call returns a dictionary of the uniform Outcome shape, one status
boolean and one reason string; no exception reaches the call surface. -/
theorem get_tx_info_total_outcome_shape (net : Nat → NetResult) (now : ℚ)
    (tx_hash wallet_customer wallet_bugs : String) :
    ∃ o : Outcome, (get_tx_info net now tx_hash wallet_customer wallet_bugs).result =
      WrapperResult.value o :=
  ⟨_, rfl⟩

/-- C7: when the first response is structurally bad, a non-200 status or a
content type that is not application/json or an unparsable body, the call
issues exactly one HTTP GET, never sleeps, and returns at once one of the
three descriptive structural fetch-error dictionaries. -/
theorem structural_fetch_failure_single_attempt (net : Nat → NetResult) (now : ℚ)
    (tx_hash wallet_customer wallet_bugs : String)
    (status_code : Int) (content_type : String) (body : Option TxData)
    (hh : tx_hash ≠ "") (hc : wallet_customer ≠ "") (hb : wallet_bugs ≠ "")
    (hnet : net 0 = NetResult.response status_code content_type body)
    (hbad : status_code ≠ 200 ∨ ¬ pyStartsWith (pyStrip content_type) "application/json"
      ∨ body = none) :
    (get_tx_info net now tx_hash wallet_customer wallet_bugs).gets = 1 ∧
    (get_tx_info net now tx_hash wallet_customer wallet_bugs).sleeps = 0 ∧
    ((get_tx_info net now tx_hash wallet_customer wallet_bugs).result =
        WrapperResult.value (mkFail (msg_non200 status_code)) ∨
     (get_tx_info net now tx_hash wallet_customer wallet_bugs).result =
        WrapperResult.value (mkFail msg_non_json) ∨
     (get_tx_info net now tx_hash wallet_customer wallet_bugs).result =
        WrapperResult.value (mkFail msg_invalid_format)) := by
  rw [get_tx_info_first_call, hnet,
    get_tx_info_once_net _ now tx_hash wallet_customer wallet_bugs hh hc hb]
  refine ⟨rfl, rfl, ?_⟩
  by_cases h200 : status_code = 200
  · subst h200
    by_cases hct : pyStartsWith (pyStrip content_type) "application/json"
    · have hbody : body = none := by
        rcases hbad with h | h | h
        · exact absurd rfl h
        · exact absurd hct h
        · exact h
      subst hbody
      right; right
      simp [fetch_result, hct, handle_exceptions]
    · right; left
      simp [fetch_result, hct]
  · left
    simp [fetch_result, h200]

/-- Closed instance for C7: a 404 HTML response is reported after a single
GET with the non-200 message. -/
theorem structural_fetch_failure_single_attempt_witness :
    (get_tx_info net404 0 "hash" "sender" "receiver").gets = 1 ∧
    (get_tx_info net404 0 "hash" "sender" "receiver").sleeps = 0 ∧
    ((get_tx_info net404 0 "hash" "sender" "receiver").result =
        WrapperResult.value (mkFail (msg_non200 404)) ∨
     (get_tx_info net404 0 "hash" "sender" "receiver").result =
        WrapperResult.value (mkFail msg_non_json) ∨
     (get_tx_info net404 0 "hash" "sender" "receiver").result =
        WrapperResult.value (mkFail msg_invalid_format)) :=
  structural_fetch_failure_single_attempt net404 0 "hash" "sender" "receiver"
    404 "text/html" none (by decide) (by decide) (by decide) rfl (Or.inl (by decide))

/-- C2: when the fetch succeeds structurally and the record passes all ten
gates, with gate 10 stated exactly as in the source, float() succeeds on the
raw value of whatever type, integer, numeric string or otherwise, the public
call returns the accepted dictionary whose amount is that raw smallest-unit
value divided by 10^6, exactly on finite values, together with the derived
timestamp, sender, receiver, confirmation count and transaction id, after a
single HTTP GET. -/
theorem get_tx_info_all_gates_accept (net : Nat → NetResult) (now : ℚ)
    (tx_hash wc wb : String) (d : TxData) (content_type : String)
    (entry : Trc20Transfer) (rest : List Trc20Transfer) (ms : Int)
    (amount_sun : PyFloat)
    (hh : tx_hash ≠ "") (hc : wc ≠ "") (hb : wb ≠ "")
    (hnet : net 0 = NetResult.response 200 content_type (some d))
    (hct : pyStartsWith (pyStrip content_type) "application/json" = true)
    (hret : d.contractRet = some "SUCCESS")
    (hconf : MIN_CONFIRMATIONS ≤ d.confirmations.getD 0)
    (hflag : d.confirmed.getD false = true)
    (hown : d.ownerAddress = some wc)
    (htr : d.trc20TransferInfo = some (entry :: rest))
    (hto : entry.to_address = some wb)
    (htype : pyLower (d.contract_type.getD "") = "trc20")
    (hrev : pyIsTrue (d.revert.getD (PyVal.pybool false)) = false)
    (hts : d.timestamp = some ms) (hms : ms ≠ 0)
    (hfresh : now - (ms : ℚ) / 1000 ≤ TX_EXPIRY_SECONDS)
    (hraw : pyFloat (d.trigger_value.getD (PyVal.pyint 0)) = Except.ok amount_sun) :
    get_tx_info net now tx_hash wc wb =
      ⟨WrapperResult.value ⟨true, msg_success, some ((ms : ℚ) / 1000),
          some (pyDivMillion amount_sun), some tx_hash, some wc, some wb,
          some (d.confirmations.getD 0)⟩, 1, 1, 0⟩ ∧
    (∀ q : ℚ, amount_sun = PyFloat.finite q →
        pyDivMillion amount_sun = PyFloat.finite (q / 1000000)) := by
  constructor
  · rw [get_tx_info_first_call, hnet,
      get_tx_info_once_net _ now tx_hash wc wb hh hc hb]
    have hfetch : fetch_result (NetResult.response 200 content_type (some d)) now tx_hash wc wb =
        .ok (validate_gates d now tx_hash wc wb) := by
      simp [fetch_result, hct]
    rw [hfetch]
    rw [validate_gates_pass_confirm d now tx_hash wc wb hret hconf hflag,
      gates_after_confirm_pass d now tx_hash wc wb _ entry rest hown hc htr hto hb htype hrev,
      timestamp_stage_pass d now tx_hash wc wb _ ms hts hms hfresh,
      amount_stage_ok d _ tx_hash wc wb _ amount_sun hraw]
  · rintro q rfl
    rfl

/-- Closed instance for C2: the record dGoodStr carries its raw amount as the
numeric string 5e6; float() parses it to the finite value 5000000, the call
is accepted after one GET, and the amount is 5e6 / 10^6 = 5 exactly. -/
theorem get_tx_info_all_gates_accept_witness :
    (get_tx_info netGoodStr 1010 "TXH" "Sender1" "Receiver1" =
      ⟨WrapperResult.value ⟨true, msg_success, some (((1000000 : Int) : ℚ) / 1000),
          some (pyDivMillion (PyFloat.finite (ratOfParts 5 0 6))), some "TXH",
          some "Sender1", some "Receiver1", some 25⟩, 1, 1, 0⟩ ∧
      (∀ q : ℚ, PyFloat.finite (ratOfParts 5 0 6) = PyFloat.finite q →
          pyDivMillion (PyFloat.finite (ratOfParts 5 0 6)) = PyFloat.finite (q / 1000000))) ∧
    ratOfParts 5 0 6 = 5000000 ∧
    pyDivMillion (PyFloat.finite (ratOfParts 5 0 6)) = PyFloat.finite 5 :=
  ⟨get_tx_info_all_gates_accept netGoodStr 1010 "TXH" "Sender1" "Receiver1" dGoodStr
      "application/json" ⟨some "Receiver1"⟩ [] 1000000 (PyFloat.finite (ratOfParts 5 0 6))
      (by decide) (by decide) (by decide) rfl (by decide) rfl (by decide) rfl rfl rfl rfl
      (by decide) (by decide) rfl (by decide) (by norm_num [TX_EXPIRY_SECONDS]) rfl,
   by norm_num [ratOfParts],
   by norm_num [pyDivMillion, ratOfParts]⟩

/-- C3: a record that fails both the confirmation-depth gate and the
receiver-match gate reports only the under-confirmation failure: the gates
short-circuit in source order, and the confirmation check precedes the
receiver check. -/
theorem confirmation_gate_precedes_receiver_gate (d : TxData) (now : ℚ)
    (tx_hash wc wb r : String) (entry : Trc20Transfer) (rest : List Trc20Transfer)
    (hret : d.contractRet = some "SUCCESS")
    (hfail3 : d.confirmations.getD 0 < MIN_CONFIRMATIONS ∨ d.confirmed.getD false = false)
    (htr : d.trc20TransferInfo = some (entry :: rest))
    (hto : entry.to_address = some r) (hfail6 : r ≠ wb) :
    validate_gates d now tx_hash wc wb =
      mkFail (msg_not_confirmed (d.confirmations.getD 0)) := by
  simp only [validate_gates]
  rw [if_neg (by simp [hret]), if_pos hfail3]

/-- Closed instance for C3: dGate35 has 5 confirmations and a transfer to
Elsewhere while Receiver1 is expected; the outcome is the 5/20
under-confirmation message, not the receiver mismatch. -/
theorem confirmation_gate_precedes_receiver_gate_witness :
    validate_gates dGate35 1010 "TXH" "Sender1" "Receiver1" =
      mkFail (msg_not_confirmed 5) :=
  confirmation_gate_precedes_receiver_gate dGate35 1010 "TXH" "Sender1" "Receiver1"
    "Elsewhere" ⟨some "Elsewhere"⟩ [] rfl (Or.inl (by decide)) rfl rfl (by decide)

/-- C4: after the contract-completion gate, the confirmation gate passes
exactly when the count reaches MIN_CONFIRMATIONS and the confirmed flag is
set: the boundary count MIN_CONFIRMATIONS with the flag passes on to the
later gates, any violation of the conjunction, in particular
MIN_CONFIRMATIONS - 1 regardless of the flag, stops with the
under-confirmation message, which carries the observed and required counts. -/
theorem confirmation_gate_boundary (d : TxData) (now : ℚ) (tx_hash wc wb : String)
    (hret : d.contractRet = some "SUCCESS") :
    ((MIN_CONFIRMATIONS ≤ d.confirmations.getD 0 ∧ d.confirmed.getD false = true) →
        validate_gates d now tx_hash wc wb =
          gates_after_confirm d now tx_hash wc wb (d.confirmations.getD 0)) ∧
    (¬ (MIN_CONFIRMATIONS ≤ d.confirmations.getD 0 ∧ d.confirmed.getD false = true) →
        validate_gates d now tx_hash wc wb =
          mkFail (msg_not_confirmed (d.confirmations.getD 0))) ∧
    msg_not_confirmed (MIN_CONFIRMATIONS - 1) =
      "Warning: The transaction is not confirmed by enough blocks. Current confirmations: 19/20" := by
  refine ⟨fun h => validate_gates_pass_confirm d now tx_hash wc wb hret h.1 h.2, fun h => ?_, by decide⟩
  have hfail : d.confirmations.getD 0 < MIN_CONFIRMATIONS ∨ d.confirmed.getD false = false := by
    rcases not_and_or.mp h with h1 | h2
    · exact Or.inl (not_le.mp h1)
    · cases hb : d.confirmed.getD false
      · exact Or.inr rfl
      · exact absurd hb h2
  simp only [validate_gates]
  rw [if_neg (by simp [hret]), if_pos hfail]

/-- Closed instance for C4: exactly 20 confirmations with the flag set passes
the gate; 19 confirmations fail with the 19/20 message even with the flag
set. -/
theorem confirmation_gate_boundary_witness :
    validate_gates dConf20 1010 "TXH" "Sender1" "Receiver1" =
      gates_after_confirm dConf20 1010 "TXH" "Sender1" "Receiver1" 20 ∧
    validate_gates dConf19 1010 "TXH" "Sender1" "Receiver1" =
      mkFail (msg_not_confirmed 19) :=
  ⟨(confirmation_gate_boundary dConf20 1010 "TXH" "Sender1" "Receiver1" rfl).1
      ⟨by decide, rfl⟩,
   (confirmation_gate_boundary dConf19 1010 "TXH" "Sender1" "Receiver1" rfl).2.1
      (by decide)⟩

/-- C5: for a record reaching the freshness gate, an age of exactly
TX_EXPIRY_SECONDS is accepted and the pipeline proceeds to the amount stage,
while an age of TX_EXPIRY_SECONDS + 1 is rejected with the expiry message
carrying the 601 elapsed seconds. -/
theorem freshness_gate_boundary (d : TxData) (now : ℚ) (tx_hash wc wb : String)
    (entry : Trc20Transfer) (rest : List Trc20Transfer) (ms : Int)
    (hc : wc ≠ "") (hb : wb ≠ "")
    (hret : d.contractRet = some "SUCCESS")
    (hconf : MIN_CONFIRMATIONS ≤ d.confirmations.getD 0)
    (hflag : d.confirmed.getD false = true)
    (hown : d.ownerAddress = some wc)
    (htr : d.trc20TransferInfo = some (entry :: rest))
    (hto : entry.to_address = some wb)
    (htype : pyLower (d.contract_type.getD "") = "trc20")
    (hrev : pyIsTrue (d.revert.getD (PyVal.pybool false)) = false)
    (hts : d.timestamp = some ms) (hms : ms ≠ 0) :
    (now - (ms : ℚ) / 1000 = TX_EXPIRY_SECONDS →
        validate_gates d now tx_hash wc wb =
          amount_stage d ((ms : ℚ) / 1000) tx_hash wc wb (d.confirmations.getD 0)) ∧
    (now - (ms : ℚ) / 1000 = TX_EXPIRY_SECONDS + 1 →
        validate_gates d now tx_hash wc wb = mkFail (msg_expired 601)) ∧
    msg_expired 601 =
      "Your submission time for the TX hash has expired (submitted 601 seconds ago). However, you can contact our support team for further information and assistance." := by
  refine ⟨fun hage => ?_, fun hage => ?_, by decide⟩
  · rw [validate_gates_pass_confirm d now tx_hash wc wb hret hconf hflag,
      gates_after_confirm_pass d now tx_hash wc wb _ entry rest hown hc htr hto hb htype hrev,
      timestamp_stage_pass d now tx_hash wc wb _ ms hts hms (le_of_eq hage)]
  · rw [validate_gates_pass_confirm d now tx_hash wc wb hret hconf hflag,
      gates_after_confirm_pass d now tx_hash wc wb _ entry rest hown hc htr hto hb htype hrev]
    have h601 : now - (ms : ℚ) / 1000 = ((601 : Int) : ℚ) := by
      rw [hage]; norm_num [TX_EXPIRY_SECONDS]
    have hgt : now - (ms : ℚ) / 1000 > TX_EXPIRY_SECONDS := by
      rw [hage]; norm_num [TX_EXPIRY_SECONDS]
    simp only [timestamp_stage, hts, Option.getD_some]
    rw [if_neg hms, if_pos hgt, h601, pyInt_intCast]

/-- Closed instance for C5: dGood was included at second 1000; at wall-clock
1600 the age is exactly 600 and the record passes on to the amount stage, at
wall-clock 1601 it is rejected as expired after 601 seconds. -/
theorem freshness_gate_boundary_witness :
    validate_gates dGood 1600 "TXH" "Sender1" "Receiver1" =
      amount_stage dGood (((1000000 : Int) : ℚ) / 1000) "TXH" "Sender1" "Receiver1" 25 ∧
    validate_gates dGood 1601 "TXH" "Sender1" "Receiver1" = mkFail (msg_expired 601) :=
  ⟨(freshness_gate_boundary dGood 1600 "TXH" "Sender1" "Receiver1" ⟨some "Receiver1"⟩ []
      1000000 (by decide) (by decide) rfl (by decide) rfl rfl rfl rfl (by decide) (by decide)
      rfl (by decide)).1 (by norm_num [TX_EXPIRY_SECONDS]),
   (freshness_gate_boundary dGood 1601 "TXH" "Sender1" "Receiver1" ⟨some "Receiver1"⟩ []
      1000000 (by decide) (by decide) rfl (by decide) rfl rfl rfl rfl (by decide) (by decide)
      rfl (by decide)).2.1 (by norm_num [TX_EXPIRY_SECONDS])⟩

/-- C8: when the nested raw-amount field is absent, the amount gate does not
fail: the dict.get chain defaults to 0, float(0) succeeds, and a record
passing every other gate is accepted with amount 0. -/
theorem missing_raw_amount_defaults_to_zero (d : TxData) (now : ℚ)
    (tx_hash wc wb : String) (entry : Trc20Transfer) (rest : List Trc20Transfer) (ms : Int)
    (hc : wc ≠ "") (hb : wb ≠ "")
    (hret : d.contractRet = some "SUCCESS")
    (hconf : MIN_CONFIRMATIONS ≤ d.confirmations.getD 0)
    (hflag : d.confirmed.getD false = true)
    (hown : d.ownerAddress = some wc)
    (htr : d.trc20TransferInfo = some (entry :: rest))
    (hto : entry.to_address = some wb)
    (htype : pyLower (d.contract_type.getD "") = "trc20")
    (hrev : pyIsTrue (d.revert.getD (PyVal.pybool false)) = false)
    (hts : d.timestamp = some ms) (hms : ms ≠ 0)
    (hfresh : now - (ms : ℚ) / 1000 ≤ TX_EXPIRY_SECONDS)
    (hnone : d.trigger_value = none) :
    validate_gates d now tx_hash wc wb =
      ⟨true, msg_success, some ((ms : ℚ) / 1000), some (PyFloat.finite 0),
        some tx_hash, some wc, some wb, some (d.confirmations.getD 0)⟩ := by
  rw [validate_gates_pass_confirm d now tx_hash wc wb hret hconf hflag,
    gates_after_confirm_pass d now tx_hash wc wb _ entry rest hown hc htr hto hb htype hrev,
    timestamp_stage_pass d now tx_hash wc wb _ ms hts hms hfresh]
  simp [amount_stage, hnone, pyFloat, pyDivMillion]

/-- Closed instance for C8: dNoAmount lacks trigger_info.parameter._value and
is accepted with amount 0. -/
theorem missing_raw_amount_defaults_to_zero_witness :
    validate_gates dNoAmount 1010 "TXH" "Sender1" "Receiver1" =
      ⟨true, msg_success, some (((1000000 : Int) : ℚ) / 1000), some (PyFloat.finite 0),
        some "TXH", some "Sender1", some "Receiver1", some 25⟩ :=
  missing_raw_amount_defaults_to_zero dNoAmount 1010 "TXH" "Sender1" "Receiver1"
    ⟨some "Receiver1"⟩ [] 1000000 (by decide) (by decide) rfl (by decide) rfl rfl rfl rfl
    (by decide) (by decide) rfl (by decide) (by norm_num [TX_EXPIRY_SECONDS]) rfl

/-- C9: for a record reaching the revert gate, the gate rejects exactly the
boolean value True: any other stored value, for example the string true or
the integer 1, passes the identity test x is True and the pipeline continues
to the timestamp stage. -/
theorem revert_gate_requires_literal_true (d : TxData) (now : ℚ)
    (tx_hash wc wb : String) (entry : Trc20Transfer) (rest : List Trc20Transfer)
    (hc : wc ≠ "") (hb : wb ≠ "")
    (hret : d.contractRet = some "SUCCESS")
    (hconf : MIN_CONFIRMATIONS ≤ d.confirmations.getD 0)
    (hflag : d.confirmed.getD false = true)
    (hown : d.ownerAddress = some wc)
    (htr : d.trc20TransferInfo = some (entry :: rest))
    (hto : entry.to_address = some wb)
    (htype : pyLower (d.contract_type.getD "") = "trc20") :
    (d.revert = some (PyVal.pybool true) →
        validate_gates d now tx_hash wc wb = mkFail msg_revert) ∧
    (∀ v : PyVal, d.revert = some v → v ≠ PyVal.pybool true →
        validate_gates d now tx_hash wc wb =
          timestamp_stage d now tx_hash wc wb (d.confirmations.getD 0)) := by
  constructor
  · intro hr
    rw [validate_gates_pass_confirm d now tx_hash wc wb hret hconf hflag]
    simp [gates_after_confirm, hown, htr, hto, htype, hc, hb, hr, pyIsTrue]
  · intro v hr hv
    rw [validate_gates_pass_confirm d now tx_hash wc wb hret hconf hflag,
      gates_after_confirm_pass d now tx_hash wc wb _ entry rest hown hc htr hto hb htype
        (by rw [hr]; exact pyIsTrue_eq_false v hv)]

/-- Closed instance for C9: records whose revert field holds the string true
or the integer 1 pass the revert gate and continue to the timestamp stage. -/
theorem revert_gate_requires_literal_true_witness :
    validate_gates dRevertStr 1010 "TXH" "Sender1" "Receiver1" =
      timestamp_stage dRevertStr 1010 "TXH" "Sender1" "Receiver1" 25 ∧
    validate_gates dRevertInt 1010 "TXH" "Sender1" "Receiver1" =
      timestamp_stage dRevertInt 1010 "TXH" "Sender1" "Receiver1" 25 :=
  ⟨(revert_gate_requires_literal_true dRevertStr 1010 "TXH" "Sender1" "Receiver1"
      ⟨some "Receiver1"⟩ [] (by decide) (by decide) rfl (by decide) rfl rfl rfl rfl
      (by decide)).2 (PyVal.pystr "true") rfl (by decide),
   (revert_gate_requires_literal_true dRevertInt 1010 "TXH" "Sender1" "Receiver1"
      ⟨some "Receiver1"⟩ [] (by decide) (by decide) rfl (by decide) rfl rfl rfl rfl
      (by decide)).2 (PyVal.pyint 1) rfl (by decide)⟩

/-- C10: a record whose non-zero inclusion timestamp lies in the future,
giving a negative age, passes the freshness gate, since only ages strictly
greater than TX_EXPIRY_SECONDS are rejected; the pipeline proceeds to the
amount stage. -/
theorem future_timestamp_passes_freshness (d : TxData) (now : ℚ)
    (tx_hash wc wb : String) (entry : Trc20Transfer) (rest : List Trc20Transfer) (ms : Int)
    (hc : wc ≠ "") (hb : wb ≠ "")
    (hret : d.contractRet = some "SUCCESS")
    (hconf : MIN_CONFIRMATIONS ≤ d.confirmations.getD 0)
    (hflag : d.confirmed.getD false = true)
    (hown : d.ownerAddress = some wc)
    (htr : d.trc20TransferInfo = some (entry :: rest))
    (hto : entry.to_address = some wb)
    (htype : pyLower (d.contract_type.getD "") = "trc20")
    (hrev : pyIsTrue (d.revert.getD (PyVal.pybool false)) = false)
    (hts : d.timestamp = some ms) (hms : ms ≠ 0)
    (hfut : now < (ms : ℚ) / 1000) :
    validate_gates d now tx_hash wc wb =
      amount_stage d ((ms : ℚ) / 1000) tx_hash wc wb (d.confirmations.getD 0) := by
  have hfresh : now - (ms : ℚ) / 1000 ≤ TX_EXPIRY_SECONDS := by
    have h0 : now - (ms : ℚ) / 1000 < 0 := by linarith
    have h600 : (0 : ℚ) ≤ TX_EXPIRY_SECONDS := by norm_num [TX_EXPIRY_SECONDS]
    linarith
  rw [validate_gates_pass_confirm d now tx_hash wc wb hret hconf hflag,
    gates_after_confirm_pass d now tx_hash wc wb _ entry rest hown hc htr hto hb htype hrev,
    timestamp_stage_pass d now tx_hash wc wb _ ms hts hms hfresh]

/-- Closed instance for C10: at wall-clock 0 the inclusion second 1000 of
dGood lies in the future and the record still reaches the amount stage. -/
theorem future_timestamp_passes_freshness_witness :
    validate_gates dGood 0 "TXH" "Sender1" "Receiver1" =
      amount_stage dGood (((1000000 : Int) : ℚ) / 1000) "TXH" "Sender1" "Receiver1" 25 :=
  future_timestamp_passes_freshness dGood 0 "TXH" "Sender1" "Receiver1"
    ⟨some "Receiver1"⟩ [] 1000000 (by decide) (by decide) rfl (by decide) rfl rfl rfl rfl
    (by decide) (by decide) rfl (by decide) (by norm_num)

end TxChecker
